import Mathlib

/-!
Shallow embedding of `src/analisis_sent.py` (repository `cestort/graficos`).

The repository consists of a single pure chart-builder function,
`grafico_kpi_sentimiento`, which validates three sentiment counts, derives
percentages, picks a bar color by a threshold ladder, and assembles a
declarative Plotly gauge figure, plus a script entry point.

Modelling conventions:
* Python `int` becomes `ℤ` (counts can be negative; Python does not reject them).
* Python `float` becomes `ℚ`: all arithmetic the claims depend on
  (percentages, thresholds) is modelled exactly over the rationals.
* The Plotly `go.Figure` is modelled as a record `ChartSpec` of exactly the
  configuration the source passes to `go.Indicator`, `add_annotation` and
  `update_layout`.
* Fallible behaviour (the `ValueError` raise on line 42, and Python's
  `IndexError` from `colores_gauge[i]` on a too-short list) is modelled with
  `Except PyError`.
-/

/-- Python exception kinds that `grafico_kpi_sentimiento` can raise:
the explicit `ValueError` (line 42) and the implicit `IndexError` from
list indexing. -/
inductive PyError where
  | valueError (msg : String)
  | indexError
deriving DecidableEq

/-- One entry of the gauge `steps` list (lines 104-108): a range
`[rangeLo, rangeHi]` and a fill color string. -/
structure GaugeStep where
  rangeLo : ℚ
  rangeHi : ℚ
  color : String
deriving DecidableEq, Inhabited

/-- The breakdown text box added by `fig.add_annotation` (lines 129-140). -/
structure DesgloseBox where
  text : String
  x : ℚ
  y : ℚ
  showarrow : Bool
  fontSize : Nat
  fontColor : String
  align : String
  bgcolor : String
  bordercolor : String
  borderwidth : Nat
  borderpad : Nat
deriving DecidableEq, Inhabited

/-- The declarative figure configuration built by the function: the
`go.Indicator` arguments (lines 59-117), the optional breakdown box
(lines 120-140), and the layout (lines 143-148). -/
structure ChartSpec where
  mode : String
  value : ℚ
  domainX : ℚ × ℚ
  domainY : ℚ × ℚ
  titleText : String
  titleFontSize : Nat
  titleFontColor : String
  numberSuffix : String
  numberFontSize : Nat
  numberFontColor : String
  deltaReference : ℚ
  deltaIncreasingColor : String
  deltaDecreasingColor : String
  deltaSuffix : String
  deltaFontSize : Nat
  axisRangeLo : ℚ
  axisRangeHi : ℚ
  tickwidth : Nat
  tickcolor : String
  tickmode : String
  tick0 : ℚ
  dtick : ℚ
  barColor : String
  barThickness : ℚ
  gaugeBgcolor : String
  gaugeBorderwidth : Nat
  gaugeBordercolor : String
  steps : List GaugeStep
  thresholdLineColor : String
  thresholdLineWidth : Nat
  thresholdThickness : ℚ
  thresholdValue : ℚ
  desglose : Option DesgloseBox
  layoutHeight : Nat
  marginL : Nat
  marginR : Nat
  marginT : Nat
  marginB : Nat
  paperBgcolor : String
  fontFamily : String
deriving DecidableEq, Inhabited

/-- Default color list assigned when `colores_gauge is None` (lines 31-36). -/
def defaultColoresGauge : List String :=
  ["#e74c3c", "#f39c12", "#2ecc71"]

/-- The message of the `ValueError` raised on line 42. -/
def msgTotalCero : String :=
  "El total de sentimientos no puede ser 0"

/-- Python list indexing `l[i]` for `0 ≤ i`: value, or `IndexError` when
out of bounds. -/
def listGet (l : List String) (i : Nat) : Except PyError String :=
  match l.get? i with
  | some s => Except.ok s
  | none => Except.error PyError.indexError

/-- Percentage computation `(count / total) * 100` (lines 45-47), exactly
over `ℚ`. -/
def pctOf (count total : ℤ) : ℚ :=
  ((count : ℚ) / (total : ℚ)) * 100

/-- The dynamic bar-color ladder (lines 51-56): index 2 when
`pct_positivo >= objetivo_positivo`, index 1 when
`pct_positivo >= objetivo_positivo * 0.7`, else index 0.  Each branch indexes
the color list, so a short list can raise `IndexError` here. -/
def color_barra_sel (colores : List String) (pct_positivo objetivo_positivo : ℚ) :
    Except PyError String :=
  if pct_positivo ≥ objetivo_positivo then listGet colores 2
  else if pct_positivo ≥ objetivo_positivo * (7 / 10) then listGet colores 1
  else listGet colores 0

/-- Round to nearest integer, ties to even: the rounding used by Python's
`format(x, '.1f')` on exactly representable values (modelled over `ℚ`). -/
def roundHalfEven (q : ℚ) : ℤ :=
  let f := ⌊q⌋
  if q - f < 1 / 2 then f
  else if q - f > 1 / 2 then f + 1
  else if f % 2 = 0 then f else f + 1

/-- Model of the Python f-string format `:.1f`: one digit after the decimal
point. -/
def fmt1 (q : ℚ) : String :=
  let n := roundHalfEven (q * 10)
  let sign := if n < 0 then "-" else ""
  sign ++ toString (n.natAbs / 10) ++ "." ++ toString (n.natAbs % 10)

/-- Model of Python's `str` of a float for the `Objetivo` line of the
breakdown text: an integral value like `70.0` prints with a trailing `.0`. -/
def fmtFloat (q : ℚ) : String :=
  if q.den = 1 then toString q.num ++ ".0" else toString q

/-- The breakdown text `desglose_texto` (lines 121-127). -/
def desgloseTexto (total positivos negativos neutros : ℤ)
    (pct_positivo pct_negativo pct_neutro objetivo_positivo : ℚ) : String :=
  "<b>Desglose Total: " ++ toString total ++ "</b><br>" ++
  "✅ Positivos: " ++ toString positivos ++ " (" ++ fmt1 pct_positivo ++ "%)<br>" ++
  "❌ Negativos: " ++ toString negativos ++ " (" ++ fmt1 pct_negativo ++ "%)<br>" ++
  "⚪ Neutros: " ++ toString neutros ++ " (" ++ fmt1 pct_neutro ++ "%)<br>" ++
  "<b>Objetivo: " ++ fmtFloat objetivo_positivo ++ "%</b>"

/-- The `fig.add_annotation(...)` call (lines 129-140) applied to the
breakdown text. -/
def mkDesglose (texto : String) : DesgloseBox :=
  { text := texto
    x := 1 / 2
    y := -(1 / 4)
    showarrow := false
    fontSize := 14
    fontColor := "#34495e"
    align := "center"
    bgcolor := "rgba(255, 255, 255, 0.9)"
    bordercolor := "#bdc3c7"
    borderwidth := 2
    borderpad := 10 }

/-- Assembly of the figure configuration (lines 59-117 and 143-148) from the
computed pieces.  All literals are taken verbatim from the source; the three
`steps` colors are the hardcoded rgba strings of lines 105-107. -/
def mkChartSpec (pct_positivo : ℚ) (titulo : String)
    (color_barra colorInc colorDec : String) (objetivo_positivo : ℚ)
    (desglose : Option DesgloseBox) : ChartSpec :=
  { mode := "gauge+number+delta"
    value := pct_positivo
    domainX := (0, 1)
    domainY := (1 / 10, 1)
    titleText := titulo
    titleFontSize := 26
    titleFontColor := "#2c3e50"
    numberSuffix := "%"
    numberFontSize := 50
    numberFontColor := color_barra
    deltaReference := objetivo_positivo
    deltaIncreasingColor := colorInc
    deltaDecreasingColor := colorDec
    deltaSuffix := "%"
    deltaFontSize := 20
    axisRangeLo := 0
    axisRangeHi := 100
    tickwidth := 2
    tickcolor := "darkgray"
    tickmode := "linear"
    tick0 := 0
    dtick := 20
    barColor := color_barra
    barThickness := 3 / 4
    gaugeBgcolor := "white"
    gaugeBorderwidth := 3
    gaugeBordercolor := "#34495e"
    steps :=
      [⟨0, 40, "rgba(231, 76, 60, 0.2)"⟩,
       ⟨40, 70, "rgba(243, 156, 18, 0.2)"⟩,
       ⟨70, 100, "rgba(46, 204, 113, 0.2)"⟩]
    thresholdLineColor := "#e74c3c"
    thresholdLineWidth := 4
    thresholdThickness := 3 / 4
    thresholdValue := objetivo_positivo
    desglose := desglose
    layoutHeight := 550
    marginL := 40
    marginR := 40
    marginT := 80
    marginB := 150
    paperBgcolor := "white"
    fontFamily := "Arial, sans-serif" }

/-- The builder `grafico_kpi_sentimiento` (lines 5-150): default colors,
total and zero check, percentages, bar-color ladder, the two unconditional
delta color lookups `colores_gauge[2]` / `colores_gauge[0]` (lines 79-80),
figure assembly and the optional breakdown box. -/
def grafico_kpi_sentimiento (positivos negativos neutros : ℤ)
    (objetivo_positivo : ℚ) (titulo : String) (mostrar_desglose : Bool)
    (colores_gauge : Option (List String)) : Except PyError ChartSpec :=
  let colores := colores_gauge.getD defaultColoresGauge
  let total := positivos + negativos + neutros
  if total = 0 then
    Except.error (PyError.valueError msgTotalCero)
  else
    let pct_positivo := pctOf positivos total
    let pct_negativo := pctOf negativos total
    let pct_neutro := pctOf neutros total
    match color_barra_sel colores pct_positivo objetivo_positivo with
    | Except.error e => Except.error e
    | Except.ok color_barra =>
      match listGet colores 2 with
      | Except.error e => Except.error e
      | Except.ok colorInc =>
        match listGet colores 0 with
        | Except.error e => Except.error e
        | Except.ok colorDec =>
          Except.ok (mkChartSpec pct_positivo titulo color_barra colorInc colorDec
            objetivo_positivo
            (if mostrar_desglose then
              some (mkDesglose (desgloseTexto total positivos negativos neutros
                pct_positivo pct_negativo pct_neutro objetivo_positivo))
            else none))

/-- Hex digit value of a character, if it is one. -/
def hexDigitVal (c : Char) : Option Nat :=
  if '0' ≤ c ∧ c ≤ '9' then some (c.toNat - Char.toNat '0')
  else if 'a' ≤ c ∧ c ≤ 'f' then some (c.toNat - Char.toNat 'a' + 10)
  else if 'A' ≤ c ∧ c ≤ 'F' then some (c.toNat - Char.toNat 'A' + 10)
  else none

/-- Byte value of two hex digits. -/
def hexByte (c1 c2 : Char) : Option Nat := do
  let hi ← hexDigitVal c1
  let lo ← hexDigitVal c2
  pure (16 * hi + lo)

/-- Modelled from the spec: "three fixed background zones ... each tinted
with partial opacity using the three colors".  The partial-opacity tint of a
`#rrggbb` hex color is its `rgba(r, g, b, 0.2)` string, the opacity the
source uses in its zone colors. -/
def rgbaTint02 (hex : String) : Option String :=
  match hex.toList with
  | ['#', r1, r2, g1, g2, b1, b2] => do
      let r ← hexByte r1 r2
      let g ← hexByte g1 g2
      let b ← hexByte b1 b2
      pure ("rgba(" ++ toString r ++ ", " ++ toString g ++ ", " ++ toString b ++ ", 0.2)")
  | _ => none

/-- Project the figure out of a builder result (default on error); used to
state closed witness facts about concrete successful runs. -/
def getOk (r : Except PyError ChartSpec) : ChartSpec :=
  match r with
  | Except.ok s => s
  | Except.error _ => default

/-! ## Helper lemmas -/

lemma listGet_error (l : List String) (i : Nat) (e : PyError)
    (h : listGet l i = Except.error e) : e = PyError.indexError := by
  unfold listGet at h
  cases hg : l.get? i <;> rw [hg] at h <;> simp at h
  exact h.symm

lemma listGet_of_length_le (l : List String) (i : Nat) (h : l.length ≤ i) :
    listGet l i = Except.error PyError.indexError := by
  unfold listGet
  rw [List.get?_eq_none.mpr h]

lemma color_barra_sel_error (l : List String) (p o : ℚ) (e : PyError)
    (h : color_barra_sel l p o = Except.error e) : e = PyError.indexError := by
  unfold color_barra_sel at h
  split at h
  · exact listGet_error l 2 e h
  · split at h
    · exact listGet_error l 1 e h
    · exact listGet_error l 0 e h

lemma color_barra_sel_three (c0 c1 c2 : String) (p o : ℚ) :
    color_barra_sel [c0, c1, c2] p o =
      Except.ok (if p ≥ o then c2 else if p ≥ o * (7 / 10) then c1 else c0) := by
  unfold color_barra_sel listGet
  split <;> [skip; split] <;> simp_all

lemma grafico_nonzero (p n u : ℤ) (obj : ℚ) (t : String) (flag : Bool)
    (c : Option (List String)) (h : ¬ p + n + u = 0) :
    grafico_kpi_sentimiento p n u obj t flag c =
      match color_barra_sel (c.getD defaultColoresGauge) (pctOf p (p + n + u)) obj with
      | Except.error e => Except.error e
      | Except.ok cb =>
        match listGet (c.getD defaultColoresGauge) 2 with
        | Except.error e => Except.error e
        | Except.ok ci =>
          match listGet (c.getD defaultColoresGauge) 0 with
          | Except.error e => Except.error e
          | Except.ok cd =>
            Except.ok (mkChartSpec (pctOf p (p + n + u)) t cb ci cd obj
              (if flag then
                some (mkDesglose (desgloseTexto (p + n + u) p n u (pctOf p (p + n + u))
                  (pctOf n (p + n + u)) (pctOf u (p + n + u)) obj))
              else none)) := by
  unfold grafico_kpi_sentimiento
  rw [if_neg h]

lemma pct_bounds (a T : ℤ) (h0 : 0 ≤ a) (hT : 0 < T) (ha : a ≤ T) :
    0 ≤ pctOf a T ∧ pctOf a T ≤ 100 := by
  have hTq : (0 : ℚ) < (T : ℚ) := by exact_mod_cast hT
  have haq : (0 : ℚ) ≤ (a : ℚ) := by exact_mod_cast h0
  have haT : (a : ℚ) ≤ (T : ℚ) := by exact_mod_cast ha
  unfold pctOf
  constructor
  · exact mul_nonneg (div_nonneg haq (le_of_lt hTq)) (by norm_num)
  · have hd : (a : ℚ) / (T : ℚ) ≤ 1 := (div_le_one hTq).mpr haT
    nlinarith

lemma grafico_uno_ok :
    grafico_kpi_sentimiento 1 0 0 70 "t" true none =
      Except.ok (getOk (grafico_kpi_sentimiento 1 0 0 70 "t" true none)) := by
  rw [grafico_nonzero 1 0 0 70 "t" true none (by decide)]
  have hpct : pctOf 1 (1 + 0 + 0) = 100 := by norm_num [pctOf]
  simp only [Option.getD_none, hpct]
  rw [show defaultColoresGauge = ["#e74c3c", "#f39c12", "#2ecc71"] from rfl,
    color_barra_sel_three]
  rw [if_pos (by norm_num)]
  rfl

lemma grafico_tres_ok :
    grafico_kpi_sentimiento 3 1 0 50 "s" false none =
      Except.ok (getOk (grafico_kpi_sentimiento 3 1 0 50 "s" false none)) := by
  rw [grafico_nonzero 3 1 0 50 "s" false none (by decide)]
  have hpct : pctOf 3 (3 + 1 + 0) = 75 := by norm_num [pctOf]
  simp only [Option.getD_none, hpct]
  rw [show defaultColoresGauge = ["#e74c3c", "#f39c12", "#2ecc71"] from rfl,
    color_barra_sel_three]
  rw [if_pos (by norm_num)]
  rfl

/-! ## Claim theorems -/

/-- C1: the builder raises its `ValueError` ("El total de sentimientos no
puede ser 0") exactly when `positivos + negativos + neutros = 0`, for every
target, title, breakdown flag and color-scheme argument; when the total is
nonzero, no error of this kind is ever produced, and when it is zero the
error is the builder's whole result, with no recovery or default
substitution. -/
theorem sentiment_c1 (p n u : ℤ) (obj : ℚ) (t : String) (flag : Bool)
    (c : Option (List String)) :
    grafico_kpi_sentimiento p n u obj t flag c =
        Except.error (PyError.valueError msgTotalCero) ↔ p + n + u = 0 := by
  by_cases h : p + n + u = 0
  · unfold grafico_kpi_sentimiento
    rw [if_pos h]
    simp [h]
  · rw [grafico_nonzero p n u obj t flag c h]
    constructor
    · intro hEq
      exfalso
      rcases hs : color_barra_sel (c.getD defaultColoresGauge) (pctOf p (p + n + u)) obj with e | cb
      · rw [hs] at hEq
        simp at hEq
        exact absurd (color_barra_sel_error _ _ _ _ hs) (by rw [hEq]; simp)
      · rw [hs] at hEq
        rcases h2 : listGet (c.getD defaultColoresGauge) 2 with e | ci
        · rw [h2] at hEq
          simp at hEq
          exact absurd (listGet_error _ _ _ h2) (by rw [hEq]; simp)
        · rw [h2] at hEq
          rcases h0 : listGet (c.getD defaultColoresGauge) 0 with e | cd
          · rw [h0] at hEq
            simp at hEq
            exact absurd (listGet_error _ _ _ h0) (by rw [hEq]; simp)
          · rw [h0] at hEq
            simp at hEq
    · intro h0
      exact absurd h0 h

/-- C2: with a three-color scheme `[c0, c1, c2]` and a nonzero total, the bar
color of the built figure follows the ordered threshold ladder on
`pct_positivo`: at or above the target it is `c2` (high), else at or above
`0.7 ×` target it is `c1` (medium), else `c0` (low).  Both boundary
comparisons use `≥`, so a tie at the target gives the high color and a tie
at `0.7 ×` target gives the medium color. -/
theorem sentiment_c2 (p n u : ℤ) (obj : ℚ) (t : String) (flag : Bool)
    (c0 c1 c2 : String) (h : p + n + u ≠ 0) :
    ((obj ≤ pctOf p (p + n + u) →
        (grafico_kpi_sentimiento p n u obj t flag (some [c0, c1, c2])).map
          ChartSpec.barColor = Except.ok c2) ∧
     (pctOf p (p + n + u) < obj → obj * (7 / 10) ≤ pctOf p (p + n + u) →
        (grafico_kpi_sentimiento p n u obj t flag (some [c0, c1, c2])).map
          ChartSpec.barColor = Except.ok c1) ∧
     (pctOf p (p + n + u) < obj → pctOf p (p + n + u) < obj * (7 / 10) →
        (grafico_kpi_sentimiento p n u obj t flag (some [c0, c1, c2])).map
          ChartSpec.barColor = Except.ok c0)) := by
  rw [grafico_nonzero p n u obj t flag (some [c0, c1, c2]) h]
  simp only [Option.getD_some, color_barra_sel_three]
  have hl2 : listGet [c0, c1, c2] 2 = Except.ok c2 := rfl
  have hl0 : listGet [c0, c1, c2] 0 = Except.ok c0 := rfl
  rw [hl2, hl0]
  refine ⟨fun h1 => ?_, fun h1 h2 => ?_, fun h1 h2 => ?_⟩
  · rw [if_pos (by exact h1)]
    rfl
  · rw [if_neg (by simpa using h1), if_pos (by exact h2)]
    rfl
  · rw [if_neg (by simpa using h1), if_neg (by simpa using h2)]
    rfl

/-- C3: for all non-negative integer count triples with positive sum the
three percentages `count / total * 100` sum to exactly 100 over exact
rational arithmetic and each lies in `[0, 100]`. -/
theorem sentiment_c3 (p n u : ℕ) (h : 0 < p + n + u) :
    (pctOf (p : ℤ) ((p : ℤ) + (n : ℤ) + (u : ℤ)) +
       pctOf (n : ℤ) ((p : ℤ) + (n : ℤ) + (u : ℤ)) +
       pctOf (u : ℤ) ((p : ℤ) + (n : ℤ) + (u : ℤ)) = 100) ∧
    (0 ≤ pctOf (p : ℤ) ((p : ℤ) + (n : ℤ) + (u : ℤ)) ∧
       pctOf (p : ℤ) ((p : ℤ) + (n : ℤ) + (u : ℤ)) ≤ 100) ∧
    (0 ≤ pctOf (n : ℤ) ((p : ℤ) + (n : ℤ) + (u : ℤ)) ∧
       pctOf (n : ℤ) ((p : ℤ) + (n : ℤ) + (u : ℤ)) ≤ 100) ∧
    (0 ≤ pctOf (u : ℤ) ((p : ℤ) + (n : ℤ) + (u : ℤ)) ∧
       pctOf (u : ℤ) ((p : ℤ) + (n : ℤ) + (u : ℤ)) ≤ 100) := by
  have hT : (0 : ℤ) < (p : ℤ) + (n : ℤ) + (u : ℤ) := by omega
  refine ⟨?_, pct_bounds _ _ (by omega) hT (by omega),
      pct_bounds _ _ (by omega) hT (by omega), pct_bounds _ _ (by omega) hT (by omega)⟩
  have hq : ((p : ℚ) + (n : ℚ) + (u : ℚ)) ≠ 0 := by
    have : (0 : ℚ) < (p : ℚ) + (n : ℚ) + (u : ℚ) := by exact_mod_cast h
    exact ne_of_gt this
  unfold pctOf
  push_cast
  field_simp
  ring

/-- C4: on the input (positivos=120, negativos=30, neutros=50, target=70)
the total is 200, `pct_positivo` is 60, the bar takes the medium color
(index 1 of the default scheme, `#f39c12`), and the gauge delta relative to
its target reference is `60 - 70 = -10`. -/
theorem sentiment_c4 :
    (120 : ℤ) + 30 + 50 = 200 ∧
    pctOf 120 200 = 60 ∧
    defaultColoresGauge.get? 1 = some ("#f39c12") ∧
    (grafico_kpi_sentimiento 120 30 50 70 "KPI: Sentimiento Positivo" true none).map
        (fun s => (s.value, s.barColor, s.deltaReference, s.value - s.deltaReference)) =
      Except.ok (60, "#f39c12", 70, -10) := by
  refine ⟨by norm_num, by norm_num [pctOf], rfl, ?_⟩
  rw [grafico_nonzero 120 30 50 70 "KPI: Sentimiento Positivo" true none (by decide)]
  have hpct : pctOf 120 (120 + 30 + 50) = 60 := by norm_num [pctOf]
  simp only [Option.getD_none, hpct]
  rw [show defaultColoresGauge = ["#e74c3c", "#f39c12", "#2ecc71"] from rfl,
     color_barra_sel_three]
  rw [if_neg (by norm_num), if_pos (by norm_num)]
  have hl2 : listGet ["#e74c3c", "#f39c12", "#2ecc71"] 2 = Except.ok ("#2ecc71") := rfl
  have hl0 : listGet ["#e74c3c", "#f39c12", "#2ecc71"] 0 = Except.ok ("#e74c3c") := rfl
  rw [hl2, hl0]
  simp only [Except.map, mkChartSpec]
  norm_num

/-- C5 counterexample: with an explicitly provided color scheme the three
background zones are NOT tinted from that scheme: on a successful run with
colors `#000000 / #ffffff / #123456` the zone colors are still the
partial-opacity tints of the three built-in default colors, which differ
from the tints of the provided scheme. -/
theorem sentiment_c5_counterexample :
    (grafico_kpi_sentimiento 1 0 0 70 "t" true (some ["#000000", "#ffffff", "#123456"])).map
        (fun s => s.steps.map (fun st => some st.color)) =
      Except.ok (List.map rgbaTint02 defaultColoresGauge) ∧
    List.map rgbaTint02 ["#000000", "#ffffff", "#123456"] ≠
      List.map rgbaTint02 defaultColoresGauge := by
  constructor
  · rw [grafico_nonzero 1 0 0 70 "t" true (some ["#000000", "#ffffff", "#123456"]) (by decide)]
    simp only [Option.getD_some, color_barra_sel_three]
    have hpct : pctOf 1 (1 + 0 + 0) = 100 := by norm_num [pctOf]
    rw [hpct, if_pos (by norm_num)]
    have hl2 : listGet ["#000000", "#ffffff", "#123456"] 2 = Except.ok ("#123456") := rfl
    have hl0 : listGet ["#000000", "#ffffff", "#123456"] 0 = Except.ok ("#000000") := rfl
    rw [hl2, hl0]
    simp only [Except.map]
    rfl
  · intro hEq
    have h1 : rgbaTint02 ("#000000") = rgbaTint02 ("#e74c3c") := by
      have := congrArg (fun l => l.get? 0) hEq
      simpa [defaultColoresGauge] using this
    rw [show rgbaTint02 ("#000000") = some ("rgba(0, 0, 0, 0.2)") from rfl,
       show rgbaTint02 ("#e74c3c") = some ("rgba(231, 76, 60, 0.2)") from rfl] at h1
    simp at h1

/-- C5 (amended): for every invocation that returns a figure, the three
background zones `[0,40] / [40,70] / [70,100]` are tinted with the
partial-opacity (alpha 0.2) versions of the three BUILT-IN DEFAULT colors,
in order low/medium/high, regardless of any provided `colores_gauge`. -/
theorem sentiment_c5_amended (p n u : ℤ) (obj : ℚ) (t : String) (flag : Bool)
    (c : Option (List String)) (spec : ChartSpec)
    (h : grafico_kpi_sentimiento p n u obj t flag c = Except.ok spec) :
    spec.steps.map (fun st => some st.color) = List.map rgbaTint02 defaultColoresGauge ∧
    spec.steps.map (fun st => (st.rangeLo, st.rangeHi)) = [(0, 40), (40, 70), (70, 100)] := by
  by_cases hz : p + n + u = 0
  · unfold grafico_kpi_sentimiento at h
    rw [if_pos hz] at h
    simp at h
  · rw [grafico_nonzero p n u obj t flag c hz] at h
    rcases hs : color_barra_sel (c.getD defaultColoresGauge) (pctOf p (p + n + u)) obj with e | cb <;>
      rw [hs] at h
    · simp at h
    rcases h2 : listGet (c.getD defaultColoresGauge) 2 with e | ci <;> rw [h2] at h
    · simp at h
    rcases h0 : listGet (c.getD defaultColoresGauge) 0 with e | cd <;> rw [h0] at h
    · simp at h
    simp only [Except.ok.injEq] at h
    subst h
    exact ⟨rfl, by simp [mkChartSpec]⟩

/-- C6: every returned figure has background zone boundaries fixed at 40 and
70 (zones `[0,40] / [40,70] / [70,100]`), an axis range of `[0,100]` with
tick interval 20 starting at 0, and a threshold marker at exactly
`objetivo_positivo`; the zone boundaries never depend on the target. -/
theorem sentiment_c6 (p n u : ℤ) (obj : ℚ) (t : String) (flag : Bool)
    (c : Option (List String)) (spec : ChartSpec)
    (h : grafico_kpi_sentimiento p n u obj t flag c = Except.ok spec) :
    spec.steps.map (fun st => (st.rangeLo, st.rangeHi)) = [(0, 40), (40, 70), (70, 100)] ∧
    spec.axisRangeLo = 0 ∧ spec.axisRangeHi = 100 ∧ spec.tick0 = 0 ∧ spec.dtick = 20 ∧
    spec.thresholdValue = obj := by
  by_cases hz : p + n + u = 0
  · unfold grafico_kpi_sentimiento at h
    rw [if_pos hz] at h
    simp at h
  · rw [grafico_nonzero p n u obj t flag c hz] at h
    rcases hs : color_barra_sel (c.getD defaultColoresGauge) (pctOf p (p + n + u)) obj with e | cb <;>
      rw [hs] at h
    · simp at h
    rcases h2 : listGet (c.getD defaultColoresGauge) 2 with e | ci <;> rw [h2] at h
    · simp at h
    rcases h0 : listGet (c.getD defaultColoresGauge) 0 with e | cd <;> rw [h0] at h
    · simp at h
    simp only [Except.ok.injEq] at h
    subst h
    simp [mkChartSpec]

/-- C7: the builder is deterministic: two invocations with equal counts,
target, title, breakdown flag and color scheme produce equal results.  In
this embedding the builder is a pure function (it performs no rendering,
persistence or other side effect by construction), so determinism is
definitional. -/
theorem sentiment_c7 (p n u p' n' u' : ℤ) (obj obj' : ℚ) (t t' : String)
    (f f' : Bool) (c c' : Option (List String)) (h1 : p = p') (h2 : n = n')
    (h3 : u = u') (h4 : obj = obj') (h5 : t = t') (h6 : f = f') (h7 : c = c') :
    grafico_kpi_sentimiento p n u obj t f c =
      grafico_kpi_sentimiento p' n' u' obj' t' f' c' := by
  rw [h1, h2, h3, h4, h5, h6, h7]

/-- C8: with an explicitly provided color list of fewer than 3 entries and a
nonzero total, the builder always fails with an out-of-bounds index error
before returning a figure, because the delta configuration unconditionally
indexes elements 2 and 0 of the list (and the tier ladder may index 2 or
1). -/
theorem sentiment_c8 (p n u : ℤ) (obj : ℚ) (t : String) (flag : Bool)
    (colores : List String) (hlen : colores.length < 3) (h : p + n + u ≠ 0) :
    grafico_kpi_sentimiento p n u obj t flag (some colores) =
      Except.error PyError.indexError := by
  rw [grafico_nonzero p n u obj t flag (some colores) h]
  have h2 : listGet ((some colores).getD defaultColoresGauge) 2 =
      Except.error PyError.indexError := by
    simp only [Option.getD_some]
    exact listGet_of_length_le colores 2 (by omega)
  rcases hs : color_barra_sel ((some colores).getD defaultColoresGauge)
      (pctOf p (p + n + u)) obj with e | cb
  · rw [color_barra_sel_error _ _ _ _ hs]
  · rw [h2]

/-- C9: the zero-total check is an equality test and negative counts are not
rejected: on (positivos=-5, negativos=3, neutros=1) the total is -1 (nonzero,
so it passes the check), the builder returns a figure without error, and its
gauge value `pct_positivo` is 500, outside `[0, 100]`. -/
theorem sentiment_c9 :
    ((-5 : ℤ) + 3 + 1 = -1 ∧ (-1 : ℤ) ≠ 0) ∧
    (grafico_kpi_sentimiento (-5) 3 1 70 "KPI: Sentimiento Positivo" true none).map
        ChartSpec.value = Except.ok 500 ∧
    ¬((0 : ℚ) ≤ 500 ∧ (500 : ℚ) ≤ 100) := by
  refine ⟨⟨by norm_num, by norm_num⟩, ?_, by norm_num⟩
  rw [grafico_nonzero (-5) 3 1 70 "KPI: Sentimiento Positivo" true none (by decide)]
  have hpct : pctOf (-5) (-5 + 3 + 1) = 500 := by norm_num [pctOf]
  simp only [Option.getD_none, hpct]
  rw [show defaultColoresGauge = ["#e74c3c", "#f39c12", "#2ecc71"] from rfl,
     color_barra_sel_three]
  rw [if_pos (by norm_num)]
  have hl2 : listGet ["#e74c3c", "#f39c12", "#2ecc71"] 2 = Except.ok ("#2ecc71") := rfl
  have hl0 : listGet ["#e74c3c", "#f39c12", "#2ecc71"] 0 = Except.ok ("#e74c3c") := rfl
  rw [hl2, hl0]
  simp only [Except.map, mkChartSpec]

/-- C10: for a nonzero total the `mostrar_desglose` flag only controls the
presence of the breakdown box: the figure built with the flag off equals the
one built with the flag on with its breakdown removed, and when present the
breakdown is exactly the box holding the total, per-category counts with
one-decimal percentages, and the target. -/
theorem sentiment_c10 (p n u : ℤ) (obj : ℚ) (t : String) (c : Option (List String))
    (h : p + n + u ≠ 0) :
    grafico_kpi_sentimiento p n u obj t false c =
      (grafico_kpi_sentimiento p n u obj t true c).map
        (fun s => { s with desglose := none }) ∧
    (grafico_kpi_sentimiento p n u obj t true c).map ChartSpec.desglose =
      (grafico_kpi_sentimiento p n u obj t true c).map (fun _ =>
        some (mkDesglose (desgloseTexto (p + n + u) p n u (pctOf p (p + n + u))
          (pctOf n (p + n + u)) (pctOf u (p + n + u)) obj))) := by
  rw [grafico_nonzero p n u obj t false c h, grafico_nonzero p n u obj t true c h]
  rcases hs : color_barra_sel (c.getD defaultColoresGauge) (pctOf p (p + n + u)) obj with e | cb
  · exact ⟨rfl, rfl⟩
  rcases h2 : listGet (c.getD defaultColoresGauge) 2 with e | ci
  · exact ⟨rfl, rfl⟩
  rcases h0 : listGet (c.getD defaultColoresGauge) 0 with e | cd
  · exact ⟨rfl, rfl⟩
  exact ⟨rfl, rfl⟩

/-! ## Witnesses -/

/-- Witness for C2: at counts 60/40/0 and target 70 the percentage is 60,
which is below the target but at least `0.7 × 70 = 49`, so the bar takes the
medium color of the provided scheme. -/
theorem sentiment_c2_witness :
    (grafico_kpi_sentimiento 60 40 0 70 "t" true (some ["r", "y", "g"])).map
      ChartSpec.barColor = Except.ok ("y") :=
  (sentiment_c2 60 40 0 70 "t" true ("r") ("y") ("g") (by decide)).2.1
    (by norm_num [pctOf]) (by norm_num [pctOf])

/-- Witness for C3: at counts 1/2/3 the hypothesis holds and the percentages
sum to 100. -/
theorem sentiment_c3_witness :
    0 < 1 + 2 + 3 ∧ pctOf 1 6 + pctOf 2 6 + pctOf 3 6 = 100 := by
  refine ⟨by norm_num, ?_⟩
  have h := (sentiment_c3 1 2 3 (by norm_num)).1
  norm_num at h
  exact h

/-- Witness for C5 (amended): a concrete successful run whose zone colors
are the tints of the default scheme. -/
theorem sentiment_c5_amended_witness :
    (getOk (grafico_kpi_sentimiento 1 0 0 70 "t" true none)).steps.map
      (fun st => some st.color) = List.map rgbaTint02 defaultColoresGauge :=
  (sentiment_c5_amended 1 0 0 70 "t" true none
    (getOk (grafico_kpi_sentimiento 1 0 0 70 "t" true none)) grafico_uno_ok).1

/-- Witness for C6: a concrete successful run with target 50 whose axis
range ends at 100 and whose threshold sits at 50. -/
theorem sentiment_c6_witness :
    (getOk (grafico_kpi_sentimiento 3 1 0 50 "s" false none)).axisRangeHi = 100 ∧
    (getOk (grafico_kpi_sentimiento 3 1 0 50 "s" false none)).thresholdValue = 50 := by
  have h := sentiment_c6 3 1 0 50 "s" false none
    (getOk (grafico_kpi_sentimiento 3 1 0 50 "s" false none)) grafico_tres_ok
  exact ⟨h.2.2.1, h.2.2.2.2.2⟩

/-- Witness for C7: two invocations with the same concrete arguments agree. -/
theorem sentiment_c7_witness :
    grafico_kpi_sentimiento 1 2 3 70 "t" true none =
      grafico_kpi_sentimiento 1 2 3 70 "t" true none :=
  sentiment_c7 1 2 3 1 2 3 70 70 "t" "t" true true none none rfl rfl rfl rfl rfl rfl rfl

/-- Witness for C8: a one-color list with a nonzero total yields the index
error. -/
theorem sentiment_c8_witness :
    grafico_kpi_sentimiento 1 0 0 70 "t" true (some ["a"]) =
      Except.error PyError.indexError :=
  sentiment_c8 1 0 0 70 "t" true ["a"] (by decide) (by decide)

/-- Witness for C10: at counts 120/30/50 the figure without breakdown is the
figure with breakdown, minus that box. -/
theorem sentiment_c10_witness :
    grafico_kpi_sentimiento 120 30 50 70 "t" false none =
      (grafico_kpi_sentimiento 120 30 50 70 "t" true none).map
        (fun s => { s with desglose := none }) :=
  (sentiment_c10 120 30 50 70 "t" none (by decide)).1
